import Mathlib

/-! Verification development for `src/app.js`.

A shallow embedding of the Express application in `src/app.js`: the
authentication middleware `verifyToken` and the four route handlers.

Modelling conventions.

* JavaScript values that the handlers inspect are `JsVal`; an absent object
  property reads as `JsVal.undefined`, as in JavaScript.
* The collaborators whose code is not part of the application are taken as
  parameters: the `jsonwebtoken` calls (`Env.jwtVerify`, `Env.jwtSign`) and the
  `mysql2` connection (`Db`).  A store error is what the driver hands to the
  callback as `err`; its `message` is the `String` of `Except.error`.
* Every call to a collaborator, every `next()` and every response written to
  `res` is recorded, in order, as an `Event`.  A function of the embedding
  returns the events it produced, so the record is append-only by construction.
* The driver's callback is run in sequence after the query it belongs to.
* `verifyToken` is used only as the first handler of the two protected routes,
  so its `next` is the continuation of the Express router (`routerNext`),
  which catches what the rest of the route throws and returns.
-/

namespace App

/-! ## JavaScript values -/

/-- A JavaScript value as the handlers see it.  `object` stands for an array or
object, carried as its JSON text: the handlers never look inside one, and it is
always truthy.  Numbers are carried as integers; only their being zero or not
is ever inspected. -/
inductive JsVal where
  | undefined
  | null
  | bool (b : Bool)
  | num (n : Int)
  | str (s : String)
  | object (json : String)
  deriving DecidableEq, Repr

/-- JavaScript truthiness (`ToBoolean`): what `!x` negates. -/
def JsVal.truthy : JsVal → Bool
  | .undefined => false
  | .null => false
  | .bool b => b
  | .num n => n != 0
  | .str s => s != ""
  | .object _ => true

/-- A plain object: its own properties in order. -/
abbrev Obj := List (String × JsVal)

/-- Property read `o.k` (also what destructuring `const { k } = o` binds):
the value of the property, `undefined` when the object has none. -/
def getField (o : Obj) (k : String) : JsVal :=
  (o.lookup k).getD .undefined

/-- The property `k` is present in the object. -/
def hasField (o : Obj) (k : String) : Bool :=
  (o.lookup k).isSome

/-! ## Strings -/

/-- `s.startsWith(pre)`. -/
def startsWith (s pre : String) : Bool :=
  pre.data.isPrefixOf s.data

/-- The fields of a character sequence cut at every character satisfying `p`;
between two adjacent separators lies an empty field. -/
def splitBy (p : Char → Bool) : List Char → List (List Char)
  | [] => [[]]
  | c :: cs =>
    if p c then [] :: splitBy p cs
    else
      match splitBy p cs with
      | [] => [[c]]
      | f :: fs => (c :: f) :: fs

/-- `s.split(" ")`: the fields of `s` cut at every single space character. -/
def splitSpace (s : String) : List String :=
  (splitBy (fun c => c == ' ') s.data).map String.mk

/-! ## Collaborators, events and outcomes -/

/-- The ways `jwt.verify` fails (it throws); the spec names these three. -/
inductive JwtError where
  | malformed
  | invalidSignature
  | expired
  deriving DecidableEq, Repr

/-- The JSON bodies the application sends; `errorPage` is the page with which
Express itself answers an exception of a handler. -/
inductive Body where
  | message (m : String)
  | error (m : String)
  | registered (m : String) (userId : Int)
  | loggedIn (m : String) (token : String)
  | rows (rs : List Obj)
  | errorPage (m : String)
  deriving DecidableEq, Repr

/-- The four statements the application sends to the store, with the values
bound to their placeholders. -/
inductive Sql where
  | insertUser (name email department_id role_id : JsVal)
  | selectUserByEmail (email : JsVal)
  | selectUsersWithDepartment
  | deleteUser (id : String)
  deriving DecidableEq, Repr

/-- What a run does, in order. -/
inductive Event where
  | jwtVerify (token : Option String) (secret : String)
  | jwtSign (payload : Obj) (secret : String) (expiresIn : String)
  | dbQuery (q : Sql)
  | next
  | send (status : Nat) (body : Body)
  deriving DecidableEq, Repr

/-- The process environment and the token library.  `jwtVerify token secret` is
`jwt.verify(token, secret)`: the decoded payload, or the error it throws; the
token is `none` when the expression passed is `undefined`.  `jwtSign` is
`jwt.sign(payload, secret, { expiresIn })` under a valid configuration. -/
structure Env where
  JWT_SECRET : String
  TOKEN_EXPIRY : String
  jwtVerify : Option String → String → Except JwtError Obj
  jwtSign : Obj → String → String → String

/-- The store connection `db` over a store state `σ`: each statement maps the
state to a new state and to what the callback receives, `err` (its message) or
the result: the `insertId` of an insert, the rows of a select. -/
structure Db (σ : Type) where
  insertUser : JsVal → JsVal → JsVal → JsVal → σ → σ × Except String Int
  selectUserByEmail : JsVal → σ → σ × Except String (List Obj)
  selectUsersWithDepartment : σ → σ × Except String (List Obj)
  deleteUser : String → σ → σ × Except String Unit

/-- The inputs of a request that the application reads. -/
structure Req where
  authorization : Option String
  body : Obj
  id : String

/-- What a middleware or handler leaves behind: the store, `req.user`, the
events it produced, and the exception it threw, if any. -/
structure Outcome (σ : Type) where
  store : σ
  user : Option Obj
  events : List Event
  thrown : Option String

/-- A continuation or handler: from the store and `req.user` to an outcome. -/
abbrev Handler (σ : Type) := σ → Option Obj → Outcome σ

/-- The responses written, in order. -/
def responses : List Event → List (Nat × Body)
  | [] => []
  | .send st b :: es => (st, b) :: responses es
  | _ :: es => responses es

/-- The statements sent to the store, in order. -/
def queries : List Event → List Sql
  | [] => []
  | .dbQuery q :: es => q :: queries es
  | _ :: es => queries es

/-- The payloads signed, in order. -/
def signed : List Event → List Obj
  | [] => []
  | .jwtSign p _ _ :: es => p :: signed es
  | _ :: es => signed es

/-- The tokens handed to `jwt.verify`, in order. -/
def verified : List Event → List (Option String)
  | [] => []
  | .jwtVerify t _ :: es => t :: verified es
  | _ :: es => verified es

/-- How many times `next()` was invoked. -/
def nextCalls (es : List Event) : Nat :=
  es.count .next

/-! ## The application -/

/-- The candidate token: `authHeader.split(" ")[1]`. -/
def candidateToken (authHeader : String) : Option String :=
  (splitSpace authHeader)[1]?

def accessDenied : Body :=
  .message "Access denied. No token provided or incorrect format."

def invalidToken : Body :=
  .message "Invalid or expired token."

/-- The middleware `verifyToken(req, res, next)`, lines 42 to 57.  `next()` is
called inside the `try` block: were it to throw, the `catch` would run
`res.status(401).json(...)`, which answers 401 when nothing has been written to
the response yet and itself throws `ERR_HTTP_HEADERS_SENT` out of the
middleware when a response has been written already. -/
def verifyToken {σ : Type} (env : Env) (req : Req) (next : Handler σ) : Handler σ :=
  fun store user =>
    match req.authorization with
    | none => ⟨store, user, [.send 403 accessDenied], none⟩
    | some authHeader =>
      if authHeader = "" || !startsWith authHeader "Bearer " then
        ⟨store, user, [.send 403 accessDenied], none⟩
      else
        let token := candidateToken authHeader
        match env.jwtVerify token env.JWT_SECRET with
        | .error _ =>
          ⟨store, user, [.jwtVerify token env.JWT_SECRET, .send 401 invalidToken], none⟩
        | .ok claims =>
          let o := next store (some claims)
          match o.thrown with
          | none =>
            ⟨o.store, o.user, [.jwtVerify token env.JWT_SECRET, .next] ++ o.events, none⟩
          | some _ =>
            if (responses o.events).isEmpty then
              ⟨o.store, o.user,
                [.jwtVerify token env.JWT_SECRET, .next] ++ o.events ++
                  [.send 401 invalidToken],
                none⟩
            else
              ⟨o.store, o.user, [.jwtVerify token env.JWT_SECRET, .next] ++ o.events,
                some "ERR_HTTP_HEADERS_SENT"⟩

/-- The continuation `next` that the Express router hands to a middleware of a
route whose remaining handler is `handler`.  The router calls the handler
inside its own `try`/`catch` and hands what it throws to its error handling,
so the call `next()` itself returns.  The application registers no error
handler; what Express's own does with the exception `e`, given the events so
far, is the parameter `onError`. -/
def routerNext {σ : Type} (onError : String → List Event → List Event)
    (handler : Handler σ) : Handler σ :=
  fun store user =>
    let o := handler store user
    match o.thrown with
    | none => o
    | some e => ⟨o.store, o.user, o.events ++ onError e o.events, none⟩

/-- The handler of `POST /register`, lines 63 to 76. -/
def register {σ : Type} (db : Db σ) (req : Req) : Handler σ :=
  fun store user =>
    let name := getField req.body "name"
    let email := getField req.body "email"
    let department_id := getField req.body "department_id"
    let role_id := getField req.body "role_id"
    if !name.truthy || !email.truthy || !department_id.truthy || !role_id.truthy then
      ⟨store, user, [.send 400 (.message "All fields are required")], none⟩
    else
      let q := Event.dbQuery (.insertUser name email department_id role_id)
      match db.insertUser name email department_id role_id store with
      | (store1, .error m) => ⟨store1, user, [q, .send 500 (.error m)], none⟩
      | (store1, .ok insertId) =>
        ⟨store1, user, [q, .send 201 (.registered "User registered successfully" insertId)], none⟩

/-- The handler of `POST /login`, lines 79 to 96. -/
def login {σ : Type} (env : Env) (db : Db σ) (req : Req) : Handler σ :=
  fun store user =>
    let email := getField req.body "email"
    if !email.truthy then
      ⟨store, user, [.send 400 (.message "Email is required")], none⟩
    else
      let q := Event.dbQuery (.selectUserByEmail email)
      match db.selectUserByEmail email store with
      | (store1, .error m) => ⟨store1, user, [q, .send 500 (.error m)], none⟩
      | (store1, .ok []) => ⟨store1, user, [q, .send 404 (.message "User not found")], none⟩
      | (store1, .ok (u :: _)) =>
        let payload : Obj := [("userId", getField u "id"), ("email", getField u "email")]
        let token := env.jwtSign payload env.JWT_SECRET env.TOKEN_EXPIRY
        ⟨store1, user,
          [q, .jwtSign payload env.JWT_SECRET env.TOKEN_EXPIRY,
            .send 200 (.loggedIn "Login successful" token)],
          none⟩

/-- The handler of `GET /users`, lines 99 to 110. -/
def listUsers {σ : Type} (db : Db σ) : Handler σ :=
  fun store user =>
    let q := Event.dbQuery .selectUsersWithDepartment
    match db.selectUsersWithDepartment store with
    | (store1, .error m) => ⟨store1, user, [q, .send 500 (.error m)], none⟩
    | (store1, .ok results) => ⟨store1, user, [q, .send 200 (.rows results)], none⟩

/-- The handler of `DELETE /users/:id`, lines 113 to 120. -/
def deleteUser {σ : Type} (db : Db σ) (req : Req) : Handler σ :=
  fun store user =>
    let q := Event.dbQuery (.deleteUser req.id)
    match db.deleteUser req.id store with
    | (store1, .error m) => ⟨store1, user, [q, .send 500 (.error m)], none⟩
    | (store1, .ok _) =>
      ⟨store1, user, [q, .send 200 (.message "User deleted successfully")], none⟩

/-- The route `app.get('/users', verifyToken, handler)`.  The handler never
throws, so the continuation the router passes to the gate is the handler. -/
def getUsersRoute {σ : Type} (env : Env) (db : Db σ) (req : Req) : Handler σ :=
  verifyToken env req (listUsers db)

/-- The route `app.delete('/users/:id', verifyToken, handler)`.  The handler
never throws, so the continuation the router passes to the gate is the
handler. -/
def deleteUserRoute {σ : Type} (env : Env) (db : Db σ) (req : Req) : Handler σ :=
  verifyToken env req (deleteUser db req)

/-! ## The spec's wording of token extraction -/

/-- Following the spec's words ("whitespace-delimited"): the fields of `s`
delimited by runs of whitespace. -/
def whitespaceFields (s : String) : List String :=
  ((splitBy Char.isWhitespace s.data).filter (fun f => !f.isEmpty)).map String.mk

/-- Following the spec's words: "the first whitespace-delimited token after
Bearer", that is "the second field" of the header. -/
def specCandidateToken (authHeader : String) : Option String :=
  (whitespaceFields authHeader)[1]?

/-- Following the spec's words for `POST /register`: one of the four fields is
missing from the body. -/
def fieldMissing (body : Obj) : Bool :=
  !hasField body "name" || !hasField body "email" ||
    !hasField body "department_id" || !hasField body "role_id"

/-! ## Example collaborators, used to run the application on concrete inputs -/

def aliceClaims : Obj :=
  [("userId", .num 1), ("email", .str "a@x.com"), ("iat", .num 1700000000),
    ("exp", .num 1700003600)]

def bobClaims : Obj :=
  [("userId", .num 2), ("email", .str "b@x.com"), ("role", .str "admin"),
    ("iat", .num 1700000000), ("exp", .num 1700003600)]

/-- An example token library: two tokens verify, one has expired, one carries a
wrong signature, everything else is malformed. -/
def exampleEnv : Env where
  JWT_SECRET := "secret"
  TOKEN_EXPIRY := "1h"
  jwtVerify := fun token secret =>
    if secret = "secret" ∧ token = some "alice.token.sig" then .ok aliceClaims
    else if secret = "secret" ∧ token = some "bob.token.sig" then .ok bobClaims
    else if token = some "old.token.sig" then .error .expired
    else if token = some "forged.token.sig" then .error .invalidSignature
    else .error .malformed
  jwtSign := fun _ _ _ => "new.token.sig"

/-- The number a string of decimal digits writes, for the example store. -/
def parseId (s : String) : Option Int :=
  s.data.foldl
    (fun acc c =>
      match acc with
      | some n => if c.isDigit then some (10 * n + (c.toNat - 48 : Nat)) else none
      | none => none)
    (some 0)

/-- An example store over a list of user rows: an insert appends a row and
reports the next identifier, a delete removes the rows with the identifier and
reports no error whether or not there was one. -/
def exampleDb : Db (List Obj) where
  insertUser := fun name email department_id role_id rows =>
    let insertId : Int := rows.length + 1
    (rows ++ [[("id", .num insertId), ("name", name), ("email", email),
        ("department_id", department_id), ("role_id", role_id)]], .ok insertId)
  selectUserByEmail := fun email rows =>
    (rows, .ok (rows.filter (fun r => getField r "email" == email)))
  selectUsersWithDepartment := fun rows =>
    (rows, .ok (rows.map (fun r =>
      [("id", getField r "id"), ("name", getField r "name"), ("email", getField r "email"),
        ("department", .null)])))
  deleteUser := fun id rows =>
    match parseId id with
    | some n => (rows.filter (fun r => getField r "id" != .num n), .ok ())
    | none => (rows, .ok ())

def aliceRow : Obj :=
  [("id", .num 1), ("name", .str "A"), ("email", .str "a@x.com"),
    ("department_id", .num 1), ("role_id", .num 1)]

/-- A continuation that does nothing and returns. -/
def returningNext : Handler (List Obj) :=
  fun store user => ⟨store, user, [], none⟩

/-- A handler that throws before doing anything. -/
def throwingHandler : Handler (List Obj) :=
  fun store user => ⟨store, user, [], some "TypeError"⟩

/-- An example of Express's own error handling: it answers 500 with its error
page when nothing has been written to the response yet. -/
def exampleOnError : String → List Event → List Event :=
  fun _ sofar =>
    if (responses sofar).isEmpty then [.send 500 (.errorPage "Internal Server Error")] else []

/-- A store whose every statement fails. -/
def failingDb : Db (List Obj) where
  insertUser := fun _ _ _ _ rows => (rows, .error "ER_CON_LOST")
  selectUserByEmail := fun _ rows => (rows, .error "ER_CON_LOST")
  selectUsersWithDepartment := fun rows => (rows, .error "ER_CON_LOST")
  deleteUser := fun _ rows => (rows, .error "ER_CON_LOST")

end App

namespace App

/-! ## The gate -/

/-- C1: a request with no Authorization header, or with a header that does not
start with the exact prefix "Bearer ", is answered with status 403 and the
fixed message and nothing else happens: `jwt.verify` is not called, `next` is
not called, the store and `req.user` are untouched. -/
theorem verifyToken_rejects_missing_or_wrong_scheme {σ : Type} (env : Env) (req : Req)
    (next : Handler σ) (store : σ) (user : Option Obj)
    (h : req.authorization = none ∨
      ∃ a, req.authorization = some a ∧ startsWith a "Bearer " = false) :
    (verifyToken env req next store user).events =
        [.send 403 (.message "Access denied. No token provided or incorrect format.")] ∧
      verified (verifyToken env req next store user).events = [] ∧
      nextCalls (verifyToken env req next store user).events = 0 ∧
      (verifyToken env req next store user).store = store ∧
      (verifyToken env req next store user).user = user := by
  have key : verifyToken env req next store user =
      ⟨store, user, [.send 403 accessDenied], none⟩ := by
    rcases h with h | ⟨a, ha, hp⟩
    · simp [verifyToken, h]
    · simp [verifyToken, ha, hp]
  rw [key]
  simp [accessDenied, verified, nextCalls]

/-- The three headers of C1 (none, "bearer xyz", "Bearer") are rejected with 403. -/
theorem verifyToken_rejects_missing_or_wrong_scheme_witness :
    startsWith "bearer xyz" "Bearer " = false ∧ startsWith "Bearer" "Bearer " = false ∧
      (verifyToken exampleEnv ⟨none, [], ""⟩ returningNext [aliceRow] none).events =
        [.send 403 (.message "Access denied. No token provided or incorrect format.")] ∧
      (verifyToken exampleEnv ⟨some "bearer xyz", [], ""⟩ returningNext [aliceRow] none).events =
        [.send 403 (.message "Access denied. No token provided or incorrect format.")] ∧
      (verifyToken exampleEnv ⟨some "Bearer", [], ""⟩ returningNext [aliceRow] none).events =
        [.send 403 (.message "Access denied. No token provided or incorrect format.")] :=
  ⟨by decide, by decide,
    (verifyToken_rejects_missing_or_wrong_scheme exampleEnv ⟨none, [], ""⟩ returningNext
      [aliceRow] none (Or.inl rfl)).1,
    (verifyToken_rejects_missing_or_wrong_scheme exampleEnv ⟨some "bearer xyz", [], ""⟩
      returningNext [aliceRow] none (Or.inr ⟨"bearer xyz", rfl, by decide⟩)).1,
    (verifyToken_rejects_missing_or_wrong_scheme exampleEnv ⟨some "Bearer", [], ""⟩
      returningNext [aliceRow] none (Or.inr ⟨"Bearer", rfl, by decide⟩)).1⟩

/-- What the gate does once the header starts with "Bearer " and `jwt.verify`
throws `e`: it records the call and answers 401 with the fixed message. -/
theorem verifyToken_of_verify_error {σ : Type} (env : Env) (req : Req) (next : Handler σ)
    (store : σ) (user : Option Obj) (a : String) (e : JwtError)
    (ha : req.authorization = some a) (hp : startsWith a "Bearer " = true)
    (hv : env.jwtVerify (candidateToken a) env.JWT_SECRET = .error e) :
    verifyToken env req next store user =
      ⟨store, user, [.jwtVerify (candidateToken a) env.JWT_SECRET, .send 401 invalidToken],
        none⟩ := by
  have hne : a ≠ "" := by
    rintro rfl
    revert hp
    decide
  simp [verifyToken, ha, hp, hv, hne]

/-- What the gate does once the header starts with "Bearer ", `jwt.verify`
returns `claims` and the continuation returns: it sets `req.user`, calls
`next`, and adds nothing. -/
theorem verifyToken_of_verify_ok {σ : Type} (env : Env) (req : Req) (next : Handler σ)
    (store : σ) (user : Option Obj) (a : String) (claims : Obj)
    (ha : req.authorization = some a) (hp : startsWith a "Bearer " = true)
    (hv : env.jwtVerify (candidateToken a) env.JWT_SECRET = .ok claims)
    (hret : (next store (some claims)).thrown = none) :
    verifyToken env req next store user =
      ⟨(next store (some claims)).store, (next store (some claims)).user,
        [.jwtVerify (candidateToken a) env.JWT_SECRET, .next] ++
          (next store (some claims)).events,
        none⟩ := by
  have hne : a ≠ "" := by
    rintro rfl
    revert hp
    decide
  simp [verifyToken, ha, hp, hv, hne, hret]

/-- Once the header starts with "Bearer ", the first thing the gate does is to
call `jwt.verify` on the candidate token. -/
theorem verifyToken_head_of_startsWith {σ : Type} (env : Env) (req : Req) (next : Handler σ)
    (store : σ) (user : Option Obj) (a : String)
    (ha : req.authorization = some a) (hp : startsWith a "Bearer " = true) :
    (verifyToken env req next store user).events.head? =
      some (.jwtVerify (candidateToken a) env.JWT_SECRET) := by
  have hne : a ≠ "" := by
    rintro rfl
    revert hp
    decide
  cases hv : env.jwtVerify (candidateToken a) env.JWT_SECRET with
  | error e => simp [verifyToken, ha, hp, hv, hne]
  | ok claims =>
    cases hth : (next store (some claims)).thrown with
    | none => simp [verifyToken, ha, hp, hv, hne, hth]
    | some e =>
      cases hr : (responses (next store (some claims)).events).isEmpty <;>
        simp [verifyToken, ha, hp, hv, hne, hth, hr]

/-- The router's continuation returns, whatever the handler does. -/
theorem routerNext_thrown {σ : Type} (onError : String → List Event → List Event)
    (handler : Handler σ) (store : σ) (user : Option Obj) :
    (routerNext onError handler store user).thrown = none := by
  unfold routerNext
  cases hth : (handler store user).thrown <;> simp [hth]

/-- The events of the router's continuation: those of the handler, then those
of Express's error handling when the handler threw. -/
theorem routerNext_events {σ : Type} (onError : String → List Event → List Event)
    (handler : Handler σ) (store : σ) (user : Option Obj) :
    (routerNext onError handler store user).events =
      (handler store user).events ++
        (match (handler store user).thrown with
          | none => []
          | some e => onError e (handler store user).events) := by
  unfold routerNext
  cases hth : (handler store user).thrown <;> simp [hth]

/-- For a handler that returns, the router's continuation is the handler. -/
theorem routerNext_of_returns {σ : Type} (onError : String → List Event → List Event)
    (handler : Handler σ) (store : σ) (user : Option Obj)
    (hret : (handler store user).thrown = none) :
    routerNext onError handler store user = handler store user := by
  simp [routerNext, hret]

/-- C2: any two requests whose header starts with "Bearer " and whose candidate
token fails verification, for whatever reasons `e₁` and `e₂`, get the same
response, status 401 with the fixed message; neither reaches `next` nor changes
the store or `req.user`. -/
theorem verifyToken_rejects_failed_verification {σ : Type} (env : Env) (req₁ req₂ : Req)
    (next₁ next₂ : Handler σ) (store₁ store₂ : σ) (user₁ user₂ : Option Obj)
    (a₁ a₂ : String) (e₁ e₂ : JwtError)
    (ha₁ : req₁.authorization = some a₁) (hp₁ : startsWith a₁ "Bearer " = true)
    (hv₁ : env.jwtVerify (candidateToken a₁) env.JWT_SECRET = .error e₁)
    (ha₂ : req₂.authorization = some a₂) (hp₂ : startsWith a₂ "Bearer " = true)
    (hv₂ : env.jwtVerify (candidateToken a₂) env.JWT_SECRET = .error e₂) :
    responses (verifyToken env req₁ next₁ store₁ user₁).events =
        [(401, .message "Invalid or expired token.")] ∧
      responses (verifyToken env req₂ next₂ store₂ user₂).events =
        responses (verifyToken env req₁ next₁ store₁ user₁).events ∧
      nextCalls (verifyToken env req₁ next₁ store₁ user₁).events = 0 ∧
      (verifyToken env req₁ next₁ store₁ user₁).store = store₁ ∧
      (verifyToken env req₁ next₁ store₁ user₁).user = user₁ := by
  rw [verifyToken_of_verify_error env req₁ next₁ store₁ user₁ a₁ e₁ ha₁ hp₁ hv₁,
    verifyToken_of_verify_error env req₂ next₂ store₂ user₂ a₂ e₂ ha₂ hp₂ hv₂]
  simp [responses, nextCalls, invalidToken]

/-- An expired token and a string that is no token at all get the same 401. -/
theorem verifyToken_rejects_failed_verification_witness :
    responses (verifyToken exampleEnv ⟨some "Bearer old.token.sig", [], ""⟩ returningNext
        [aliceRow] none).events = [(401, .message "Invalid or expired token.")] ∧
      responses (verifyToken exampleEnv ⟨some "Bearer not-a-real-token", [], ""⟩ returningNext
        [] none).events =
        responses (verifyToken exampleEnv ⟨some "Bearer old.token.sig", [], ""⟩ returningNext
          [aliceRow] none).events :=
  have h := verifyToken_rejects_failed_verification exampleEnv
    ⟨some "Bearer old.token.sig", [], ""⟩ ⟨some "Bearer not-a-real-token", [], ""⟩
    returningNext returningNext [aliceRow] [] none none
    "Bearer old.token.sig" "Bearer not-a-real-token" .expired .malformed
    rfl (by decide) rfl rfl (by decide) rfl
  ⟨h.1, h.2.1⟩

/-! ## The protected routes -/

/-- The handler of `GET /users` answers 200 or 500, sends one statement and
returns. -/
theorem listUsers_events {σ : Type} (db : Db σ) (store : σ) (user : Option Obj) :
    (listUsers db store user).thrown = none ∧
      ∃ st b, (st = 200 ∨ st = 500) ∧
        (listUsers db store user).events = [.dbQuery .selectUsersWithDepartment, .send st b] := by
  unfold listUsers
  rcases h : db.selectUsersWithDepartment store with ⟨s1, r⟩
  cases r <;> simp

/-- The handler of `DELETE /users/:id` answers 200 or 500, sends one statement
and returns. -/
theorem deleteUser_events {σ : Type} (db : Db σ) (req : Req) (store : σ) (user : Option Obj) :
    (deleteUser db req store user).thrown = none ∧
      ∃ st b, (st = 200 ∨ st = 500) ∧
        (deleteUser db req store user).events = [.dbQuery (.deleteUser req.id), .send st b] := by
  unfold deleteUser
  rcases h : db.deleteUser req.id store with ⟨s1, r⟩
  cases r <;> simp

/-- The gate in front of a handler that returns: whatever the handler does, the
gate passes (`next` is called, a statement may reach the store) only on a
verified "Bearer " header, and a 403 or 401 is sent only with nothing else
done. -/
theorem gate_guards_handler {σ : Type} (env : Env) (req : Req) (handler : Handler σ)
    (store : σ) (user : Option Obj)
    (hh : ∀ s u, (handler s u).thrown = none ∧
      ∃ st b, (st = 200 ∨ st = 500) ∧ ∃ q, (handler s u).events = [.dbQuery q, .send st b]) :
    ((Event.next ∈ (verifyToken env req handler store user).events ∨
        queries (verifyToken env req handler store user).events ≠ []) →
      ∃ a claims, req.authorization = some a ∧ startsWith a "Bearer " = true ∧
        env.jwtVerify (candidateToken a) env.JWT_SECRET = .ok claims) ∧
    (∀ b, (Event.send 403 b ∈ (verifyToken env req handler store user).events ∨
        Event.send 401 b ∈ (verifyToken env req handler store user).events) →
      queries (verifyToken env req handler store user).events = [] ∧
        Event.next ∉ (verifyToken env req handler store user).events ∧
        (verifyToken env req handler store user).store = store) := by
  cases ha : req.authorization with
  | none =>
    have key : verifyToken env req handler store user =
        ⟨store, user, [.send 403 accessDenied], none⟩ := by simp [verifyToken, ha]
    rw [key]; simp [queries]
  | some a =>
    cases hp : startsWith a "Bearer " with
    | false =>
      have key : verifyToken env req handler store user =
          ⟨store, user, [.send 403 accessDenied], none⟩ := by simp [verifyToken, ha, hp]
      rw [key]; simp [queries]
    | true =>
      cases hv : env.jwtVerify (candidateToken a) env.JWT_SECRET with
      | error e =>
        rw [verifyToken_of_verify_error env req handler store user a e ha hp hv]
        simp [queries]
      | ok claims =>
        obtain ⟨hth, st, b, hst, q, hev⟩ := hh store (some claims)
        rw [verifyToken_of_verify_ok env req handler store user a claims ha hp hv hth]
        refine ⟨fun _ => ⟨a, claims, rfl, hp, hv⟩, ?_⟩
        intro b2 hb
        exfalso
        rw [hev] at hb
        rcases hst with rfl | rfl <;> simp at hb

/-- C4: on `GET /users` and `DELETE /users/:id` the handler runs (`next`) or a
statement reaches the store only if the Authorization header starts with
"Bearer " and the extracted token passed verification; whenever a 403 or a
401 is sent, no statement was sent, the handler did not run and the store is
unchanged. -/
theorem protected_routes_guarded {σ : Type} (env : Env) (db : Db σ) (req : Req)
    (store : σ) (user : Option Obj) :
    (((Event.next ∈ (getUsersRoute env db req store user).events ∨
          queries (getUsersRoute env db req store user).events ≠ []) →
        ∃ a claims, req.authorization = some a ∧ startsWith a "Bearer " = true ∧
          env.jwtVerify (candidateToken a) env.JWT_SECRET = .ok claims) ∧
      (∀ b, (Event.send 403 b ∈ (getUsersRoute env db req store user).events ∨
          Event.send 401 b ∈ (getUsersRoute env db req store user).events) →
        queries (getUsersRoute env db req store user).events = [] ∧
          Event.next ∉ (getUsersRoute env db req store user).events ∧
          (getUsersRoute env db req store user).store = store)) ∧
    (((Event.next ∈ (deleteUserRoute env db req store user).events ∨
          queries (deleteUserRoute env db req store user).events ≠ []) →
        ∃ a claims, req.authorization = some a ∧ startsWith a "Bearer " = true ∧
          env.jwtVerify (candidateToken a) env.JWT_SECRET = .ok claims) ∧
      (∀ b, (Event.send 403 b ∈ (deleteUserRoute env db req store user).events ∨
          Event.send 401 b ∈ (deleteUserRoute env db req store user).events) →
        queries (deleteUserRoute env db req store user).events = [] ∧
          Event.next ∉ (deleteUserRoute env db req store user).events ∧
          (deleteUserRoute env db req store user).store = store)) := by
  constructor
  · apply gate_guards_handler
    intro s u
    obtain ⟨h1, st, b, hst, hev⟩ := listUsers_events db s u
    exact ⟨h1, st, b, hst, _, hev⟩
  · apply gate_guards_handler
    intro s u
    obtain ⟨h1, st, b, hst, hev⟩ := deleteUser_events db req s u
    exact ⟨h1, st, b, hst, _, hev⟩

/-! ## The gate in front of the router's continuation -/

/-- C3: once the header starts with "Bearer " and the candidate token verifies,
the gate calls `next` exactly once, with `req.user` set to exactly the claims
returned by verification, and writes nothing to the response itself: all that
happens after the verification is the call of `next` and what the rest of the
route does, whether the wrapped handler returns or throws.  On the two
protected routes `req.user` ends as those claims, `next` is called once and
the responses are the handler's own. -/
theorem verifyToken_forwards_verified_request {σ : Type} (env : Env) (db : Db σ) (req : Req)
    (handler : Handler σ) (onError : String → List Event → List Event)
    (store : σ) (user : Option Obj) (a : String) (claims : Obj)
    (ha : req.authorization = some a) (hp : startsWith a "Bearer " = true)
    (hv : env.jwtVerify (candidateToken a) env.JWT_SECRET = .ok claims) :
    ((verifyToken env req (routerNext onError handler) store user).events =
        [.jwtVerify (candidateToken a) env.JWT_SECRET, .next] ++
          (routerNext onError handler store (some claims)).events ∧
      responses (verifyToken env req (routerNext onError handler) store user).events =
        responses (routerNext onError handler store (some claims)).events ∧
      (verifyToken env req (routerNext onError handler) store user).user =
        (routerNext onError handler store (some claims)).user ∧
      (verifyToken env req (routerNext onError handler) store user).store =
        (routerNext onError handler store (some claims)).store ∧
      (verifyToken env req (routerNext onError handler) store user).thrown = none) ∧
    ((getUsersRoute env db req store user).user = some claims ∧
      nextCalls (getUsersRoute env db req store user).events = 1 ∧
      responses (getUsersRoute env db req store user).events =
        responses (listUsers db store (some claims)).events) ∧
    ((deleteUserRoute env db req store user).user = some claims ∧
      nextCalls (deleteUserRoute env db req store user).events = 1 ∧
      responses (deleteUserRoute env db req store user).events =
        responses (deleteUser db req store (some claims)).events) := by
  refine ⟨?_, ?_, ?_⟩
  · rw [verifyToken_of_verify_ok env req (routerNext onError handler) store user a claims
      ha hp hv (routerNext_thrown onError handler store (some claims))]
    simp [responses]
  · obtain ⟨hth, st, b, _, hev⟩ := listUsers_events db store (some claims)
    have hu : (listUsers db store (some claims)).user = some claims := by
      unfold listUsers
      rcases hq : db.selectUsersWithDepartment store with ⟨s1, r⟩
      cases r <;> simp
    unfold getUsersRoute
    rw [verifyToken_of_verify_ok env req (listUsers db) store user a claims ha hp hv hth]
    refine ⟨hu, ?_, by simp [responses]⟩
    simp [hev, nextCalls]
  · obtain ⟨hth, st, b, _, hev⟩ := deleteUser_events db req store (some claims)
    have hu : (deleteUser db req store (some claims)).user = some claims := by
      unfold deleteUser
      rcases hq : db.deleteUser req.id store with ⟨s1, r⟩
      cases r <;> simp
    unfold deleteUserRoute
    rw [verifyToken_of_verify_ok env req (deleteUser db req) store user a claims ha hp hv hth]
    refine ⟨hu, ?_, by simp [responses]⟩
    simp [hev, nextCalls]

/-- A verified request whose wrapped handler throws: the gate writes nothing,
the only response is the one of Express's error handling; and a verified
request to `GET /users` on the example store is answered by the handler. -/
theorem verifyToken_forwards_verified_request_witness :
    (verifyToken exampleEnv ⟨some "Bearer alice.token.sig", [], ""⟩
        (routerNext exampleOnError throwingHandler) [aliceRow] none).events =
        [.jwtVerify (some "alice.token.sig") "secret", .next,
          .send 500 (.errorPage "Internal Server Error")] ∧
      (getUsersRoute exampleEnv exampleDb ⟨some "Bearer alice.token.sig", [], ""⟩
        [aliceRow] none).user = some aliceClaims ∧
      nextCalls (getUsersRoute exampleEnv exampleDb ⟨some "Bearer alice.token.sig", [], ""⟩
        [aliceRow] none).events = 1 :=
  have h := verifyToken_forwards_verified_request exampleEnv exampleDb
    ⟨some "Bearer alice.token.sig", [], ""⟩ throwingHandler exampleOnError [aliceRow] none
    "Bearer alice.token.sig" aliceClaims rfl (by decide) rfl
  ⟨h.1.1, h.2.1.1, h.2.1.2.1⟩

/-- The gate in front of a handler that returns and answers 200 or 500: a 401
is sent exactly when the header starts with "Bearer " and verification of the
candidate token fails. -/
theorem gate_401_iff {σ : Type} (env : Env) (req : Req) (handler : Handler σ)
    (store : σ) (user : Option Obj)
    (hh : ∀ s u, (handler s u).thrown = none ∧
      ∃ st b, (st = 200 ∨ st = 500) ∧ ∃ q, (handler s u).events = [.dbQuery q, .send st b]) :
    (∃ b, Event.send 401 b ∈ (verifyToken env req handler store user).events) ↔
      ∃ a e, req.authorization = some a ∧ startsWith a "Bearer " = true ∧
        env.jwtVerify (candidateToken a) env.JWT_SECRET = .error e := by
  cases ha : req.authorization with
  | none =>
    have key : verifyToken env req handler store user =
        ⟨store, user, [.send 403 accessDenied], none⟩ := by simp [verifyToken, ha]
    rw [key]; simp
  | some a =>
    cases hp : startsWith a "Bearer " with
    | false =>
      have key : verifyToken env req handler store user =
          ⟨store, user, [.send 403 accessDenied], none⟩ := by simp [verifyToken, ha, hp]
      rw [key]; simp [hp]
    | true =>
      cases hv : env.jwtVerify (candidateToken a) env.JWT_SECRET with
      | error e =>
        rw [verifyToken_of_verify_error env req handler store user a e ha hp hv]
        simp [hp, hv]
      | ok claims =>
        obtain ⟨hth, st, b, hst, q, hev⟩ := hh store (some claims)
        rw [verifyToken_of_verify_ok env req handler store user a claims ha hp hv hth, hev]
        rcases hst with rfl | rfl <;> simp [hp, hv]

/-- C10: the gate sends the 401 "Invalid or expired token." response if and only
if the header starts with "Bearer " and verification of the extracted token
fails.  For the rest of the route run through the router's continuation, the
run is the verification call followed by the gate's 401 exactly in that case;
on the two protected routes a 401 is among the events exactly in that case.
In particular, when the token verifies and the wrapped handler throws, the
events are the verification, the call of `next`, the handler's own events and
those of Express's error handling: the gate adds no 401 and returns. -/
theorem verifyToken_sends_401_iff_verification_fails {σ : Type} (env : Env) (db : Db σ)
    (req : Req) (handler : Handler σ) (onError : String → List Event → List Event)
    (store : σ) (user : Option Obj) :
    ((∃ a, req.authorization = some a ∧
        (verifyToken env req (routerNext onError handler) store user).events =
          [.jwtVerify (candidateToken a) env.JWT_SECRET,
            .send 401 (.message "Invalid or expired token.")]) ↔
      ∃ a e, req.authorization = some a ∧ startsWith a "Bearer " = true ∧
        env.jwtVerify (candidateToken a) env.JWT_SECRET = .error e) ∧
    ((∃ b, Event.send 401 b ∈ (getUsersRoute env db req store user).events) ↔
      ∃ a e, req.authorization = some a ∧ startsWith a "Bearer " = true ∧
        env.jwtVerify (candidateToken a) env.JWT_SECRET = .error e) ∧
    ((∃ b, Event.send 401 b ∈ (deleteUserRoute env db req store user).events) ↔
      ∃ a e, req.authorization = some a ∧ startsWith a "Bearer " = true ∧
        env.jwtVerify (candidateToken a) env.JWT_SECRET = .error e) ∧
    (∀ a claims, req.authorization = some a → startsWith a "Bearer " = true →
      env.jwtVerify (candidateToken a) env.JWT_SECRET = .ok claims →
      (verifyToken env req (routerNext onError handler) store user).events =
          [.jwtVerify (candidateToken a) env.JWT_SECRET, .next] ++
            (handler store (some claims)).events ++
            (match (handler store (some claims)).thrown with
              | none => []
              | some e => onError e (handler store (some claims)).events) ∧
        (verifyToken env req (routerNext onError handler) store user).thrown = none) := by
  refine ⟨?_, ?_, ?_, ?_⟩
  · cases ha : req.authorization with
    | none => simp
    | some a =>
      cases hp : startsWith a "Bearer " with
      | false =>
        have key : verifyToken env req (routerNext onError handler) store user =
            ⟨store, user, [.send 403 accessDenied], none⟩ := by simp [verifyToken, ha, hp]
        rw [key]; simp [hp]
      | true =>
        cases hv : env.jwtVerify (candidateToken a) env.JWT_SECRET with
        | error e =>
          rw [verifyToken_of_verify_error env req (routerNext onError handler) store user a e
            ha hp hv]
          simp [hp, hv, invalidToken]
        | ok claims =>
          rw [verifyToken_of_verify_ok env req (routerNext onError handler) store user a claims
            ha hp hv (routerNext_thrown onError handler store (some claims))]
          simp [hp, hv]
  · apply gate_401_iff
    intro s u
    obtain ⟨h1, st, b, hst, hev⟩ := listUsers_events db s u
    exact ⟨h1, st, b, hst, _, hev⟩
  · apply gate_401_iff
    intro s u
    obtain ⟨h1, st, b, hst, hev⟩ := deleteUser_events db req s u
    exact ⟨h1, st, b, hst, _, hev⟩
  · intro a claims ha hp hv
    rw [verifyToken_of_verify_ok env req (routerNext onError handler) store user a claims
      ha hp hv (routerNext_thrown onError handler store (some claims)),
      routerNext_events]
    simp

/-- A verified request whose wrapped handler throws gets Express's 500 and no
401; a request with an expired token gets the 401. -/
theorem verifyToken_sends_401_iff_verification_fails_witness :
    (verifyToken exampleEnv ⟨some "Bearer bob.token.sig", [], "1"⟩
        (routerNext exampleOnError throwingHandler) [aliceRow] none).events =
        [.jwtVerify (some "bob.token.sig") "secret", .next,
          .send 500 (.errorPage "Internal Server Error")] ∧
      ∃ b, Event.send 401 b ∈ (getUsersRoute exampleEnv exampleDb
        ⟨some "Bearer old.token.sig", [], ""⟩ [aliceRow] none).events :=
  ⟨((verifyToken_sends_401_iff_verification_fails exampleEnv exampleDb
      ⟨some "Bearer bob.token.sig", [], "1"⟩ throwingHandler exampleOnError [aliceRow]
      none).2.2.2 "Bearer bob.token.sig" bobClaims rfl (by decide) rfl).1,
    (verifyToken_sends_401_iff_verification_fails exampleEnv exampleDb
      ⟨some "Bearer old.token.sig", [], ""⟩ throwingHandler exampleOnError [aliceRow]
      none).2.1.2 ⟨"Bearer old.token.sig", .expired, rfl, by decide, rfl⟩⟩

/-! ## Token extraction -/

/-- The first field of a split is the longest run of non-separators at the
front. -/
theorem splitBy_eq_cons (p : Char → Bool) (cs : List Char) :
    ∃ fs, splitBy p cs = cs.takeWhile (fun c => !p c) :: fs := by
  induction cs with
  | nil => exact ⟨[], rfl⟩
  | cons c cs ih =>
    obtain ⟨fs, hfs⟩ := ih
    cases hc : p c with
    | true => exact ⟨splitBy p cs, by simp [splitBy, hc]⟩
    | false => exact ⟨fs, by simp [splitBy, hc, hfs]⟩

/-- After the prefix "Bearer ", the second space-separated field is what lies
between the prefix and the next space. -/
theorem candidateToken_of_startsWith (a : String) (hp : startsWith a "Bearer " = true) :
    candidateToken a =
      some (String.mk ((a.data.drop 7).takeWhile (fun c => !(c == ' ')))) := by
  unfold startsWith at hp
  rw [List.isPrefixOf_iff_prefix] at hp
  obtain ⟨t, ht⟩ := hp
  obtain ⟨fs, hfs⟩ := splitBy_eq_cons (fun c => c == ' ') t
  have hd : a.data = 'B' :: 'e' :: 'a' :: 'r' :: 'e' :: 'r' :: ' ' :: t := by
    rw [← ht]; rfl
  simp [candidateToken, splitSpace, hd, splitBy, hfs]

/-- C6, counterexample: in the header "Bearer  abc" (two spaces) the first
whitespace-delimited token after "Bearer" is "abc", yet the gate hands the
empty string to verification; in "Bearer abc<TAB>def" that token is "abc", yet
the gate hands over "abc<TAB>def". -/
theorem candidateToken_differs_from_whitespace_field :
    startsWith "Bearer  abc" "Bearer " = true ∧
      specCandidateToken "Bearer  abc" = some "abc" ∧
      candidateToken "Bearer  abc" = some "" ∧
      verified (verifyToken exampleEnv ⟨some "Bearer  abc", [], ""⟩ returningNext
        [] none).events = [some ""] ∧
      startsWith "Bearer abc\tdef" "Bearer " = true ∧
      specCandidateToken "Bearer abc\tdef" = some "abc" ∧
      verified (verifyToken exampleEnv ⟨some "Bearer abc\tdef", [], ""⟩ returningNext
        [] none).events = [some "abc\tdef"] := by
  decide

/-- C6, amended: for a header that starts with "Bearer ", the candidate token
handed to verification is the header's second field when it is cut at every
single space character: the characters that follow the prefix up to, not
including, the next space.  Whatever follows that space is ignored. -/
theorem verifyToken_verifies_second_space_field {σ : Type} (env : Env) (req : Req)
    (next : Handler σ) (store : σ) (user : Option Obj) (a : String)
    (ha : req.authorization = some a) (hp : startsWith a "Bearer " = true) :
    candidateToken a =
        some (String.mk ((a.data.drop 7).takeWhile (fun c => !(c == ' ')))) ∧
      (verifyToken env req next store user).events.head? =
        some (.jwtVerify
          (some (String.mk ((a.data.drop 7).takeWhile (fun c => !(c == ' ')))))
          env.JWT_SECRET) := by
  have hc := candidateToken_of_startsWith a hp
  refine ⟨hc, ?_⟩
  rw [verifyToken_head_of_startsWith env req next store user a ha hp, hc]

/-- Trailing content after the token is ignored. -/
theorem verifyToken_verifies_second_space_field_witness :
    (verifyToken exampleEnv ⟨some "Bearer alice.token.sig trailing words", [], ""⟩
      returningNext [] none).events.head? =
      some (.jwtVerify (some "alice.token.sig") exampleEnv.JWT_SECRET) :=
  (verifyToken_verifies_second_space_field exampleEnv
    ⟨some "Bearer alice.token.sig trailing words", [], ""⟩ returningNext [] none
    "Bearer alice.token.sig trailing words" rfl (by decide)).2

/-! ## The public routes -/

/-- A field that is missing reads as `undefined`, which is falsy. -/
theorem truthy_getField_of_not_hasField (o : Obj) (k : String) (h : hasField o k = false) :
    (getField o k).truthy = false := by
  unfold hasField at h
  unfold getField
  cases hl : o.lookup k with
  | none => rfl
  | some v => simp [hl] at h

/-- What `POST /register` does when one of the four fields is falsy. -/
theorem register_of_falsy {σ : Type} (db : Db σ) (req : Req) (store : σ) (user : Option Obj)
    (h : (getField req.body "name").truthy = false ∨
      (getField req.body "email").truthy = false ∨
      (getField req.body "department_id").truthy = false ∨
      (getField req.body "role_id").truthy = false) :
    register db req store user =
      ⟨store, user, [.send 400 (.message "All fields are required")], none⟩ := by
  unfold register
  rcases h with h | h | h | h <;> simp [h]

/-- What `POST /register` does when all four fields are truthy. -/
theorem register_of_truthy {σ : Type} (db : Db σ) (req : Req) (store : σ) (user : Option Obj)
    (h1 : (getField req.body "name").truthy = true)
    (h2 : (getField req.body "email").truthy = true)
    (h3 : (getField req.body "department_id").truthy = true)
    (h4 : (getField req.body "role_id").truthy = true) :
    (register db req store user).events =
      [.dbQuery (.insertUser (getField req.body "name") (getField req.body "email")
          (getField req.body "department_id") (getField req.body "role_id")),
        .send
          (match (db.insertUser (getField req.body "name") (getField req.body "email")
            (getField req.body "department_id") (getField req.body "role_id") store).2 with
            | .error _ => 500
            | .ok _ => 201)
          (match (db.insertUser (getField req.body "name") (getField req.body "email")
            (getField req.body "department_id") (getField req.body "role_id") store).2 with
            | .error m => .error m
            | .ok insertId => .registered "User registered successfully" insertId)] := by
  unfold register
  rcases hq : db.insertUser (getField req.body "name") (getField req.body "email")
    (getField req.body "department_id") (getField req.body "role_id") store with ⟨s1, r⟩
  cases r <;> simp [h1, h2, h3, h4, hq]

/-- C7, counterexample: the body carries all four fields, `department_id` being
the number 0; the answer is 400 "All fields are required" and nothing is
inserted. -/
theorem register_rejects_present_zero_field :
    fieldMissing [("name", .str "A"), ("email", .str "a@x.com"), ("department_id", .num 0),
        ("role_id", .num 1)] = false ∧
      responses (register exampleDb
        ⟨none, [("name", .str "A"), ("email", .str "a@x.com"), ("department_id", .num 0),
          ("role_id", .num 1)], ""⟩ [] none).events =
        [(400, .message "All fields are required")] ∧
      queries (register exampleDb
        ⟨none, [("name", .str "A"), ("email", .str "a@x.com"), ("department_id", .num 0),
          ("role_id", .num 1)], ""⟩ [] none).events = [] := by
  decide

/-- C7, amended: `POST /register` answers 400 "All fields are required" and
inserts nothing if and only if one of `name`, `email`, `department_id`,
`role_id` is missing or falsy (null, false, 0, the empty string); a missing
field is one such case.  When all four are truthy it sends exactly one insert,
with those four values, and if the store reports no error it answers 201 with
`userId` the store-assigned insert id. -/
theorem register_rejects_iff_field_falsy {σ : Type} (db : Db σ) (req : Req) (store : σ)
    (user : Option Obj) :
    ((responses (register db req store user).events =
          [(400, .message "All fields are required")] ∧
        queries (register db req store user).events = []) ↔
      ((getField req.body "name").truthy = false ∨
        (getField req.body "email").truthy = false ∨
        (getField req.body "department_id").truthy = false ∨
        (getField req.body "role_id").truthy = false)) ∧
    (fieldMissing req.body = true →
      responses (register db req store user).events =
          [(400, .message "All fields are required")] ∧
        queries (register db req store user).events = []) ∧
    (((getField req.body "name").truthy = true ∧
        (getField req.body "email").truthy = true ∧
        (getField req.body "department_id").truthy = true ∧
        (getField req.body "role_id").truthy = true) →
      queries (register db req store user).events =
          [.insertUser (getField req.body "name") (getField req.body "email")
            (getField req.body "department_id") (getField req.body "role_id")] ∧
        ∀ insertId,
          (db.insertUser (getField req.body "name") (getField req.body "email")
            (getField req.body "department_id") (getField req.body "role_id") store).2 =
              .ok insertId →
          responses (register db req store user).events =
            [(201, .registered "User registered successfully" insertId)]) := by
  have hfalsy : ∀ h : ((getField req.body "name").truthy = false ∨
      (getField req.body "email").truthy = false ∨
      (getField req.body "department_id").truthy = false ∨
      (getField req.body "role_id").truthy = false),
      responses (register db req store user).events =
          [(400, .message "All fields are required")] ∧
        queries (register db req store user).events = [] := by
    intro h
    rw [register_of_falsy db req store user h]
    simp [responses, queries]
  refine ⟨⟨?_, hfalsy⟩, ?_, ?_⟩
  · intro h
    by_contra hn
    simp only [not_or, Bool.not_eq_false] at hn
    obtain ⟨h1, h2, h3, h4⟩ := hn
    have hq := h.2
    rw [register_of_truthy db req store user h1 h2 h3 h4] at hq
    simp [queries] at hq
  · intro hm
    apply hfalsy
    simp only [fieldMissing, Bool.or_eq_true, Bool.not_eq_true'] at hm
    rcases hm with ((hm | hm) | hm) | hm
    · exact Or.inl (truthy_getField_of_not_hasField _ _ hm)
    · exact Or.inr (Or.inl (truthy_getField_of_not_hasField _ _ hm))
    · exact Or.inr (Or.inr (Or.inl (truthy_getField_of_not_hasField _ _ hm)))
    · exact Or.inr (Or.inr (Or.inr (truthy_getField_of_not_hasField _ _ hm)))
  · rintro ⟨h1, h2, h3, h4⟩
    rw [register_of_truthy db req store user h1 h2 h3 h4]
    refine ⟨by simp [queries], ?_⟩
    intro insertId hok
    simp [responses, hok]

/-- Scenario 1 of the spec: registering a complete body on the example store
answers 201 with the insert id. -/
theorem register_rejects_iff_field_falsy_witness :
    responses (register exampleDb
      ⟨none, [("name", .str "A"), ("email", .str "a@x.com"), ("department_id", .num 1),
        ("role_id", .num 1)], ""⟩ [] none).events =
      [(201, .registered "User registered successfully" 1)] :=
  (register_rejects_iff_field_falsy exampleDb
    ⟨none, [("name", .str "A"), ("email", .str "a@x.com"), ("department_id", .num 1),
      ("role_id", .num 1)], ""⟩ [] none).2.2 (by decide) |>.2 1 rfl

/-- What `POST /login` does when `email` is falsy. -/
theorem login_of_falsy {σ : Type} (env : Env) (db : Db σ) (req : Req) (store : σ)
    (user : Option Obj) (h : (getField req.body "email").truthy = false) :
    login env db req store user =
      ⟨store, user, [.send 400 (.message "Email is required")], none⟩ := by
  simp [login, h]

/-- What `POST /login` does when `email` is truthy, by what the store hands to
the callback. -/
theorem login_of_truthy {σ : Type} (env : Env) (db : Db σ) (req : Req) (store : σ)
    (user : Option Obj) (h : (getField req.body "email").truthy = true) :
    (login env db req store user).events =
      match (db.selectUserByEmail (getField req.body "email") store).2 with
      | .error m =>
        [.dbQuery (.selectUserByEmail (getField req.body "email")), .send 500 (.error m)]
      | .ok [] =>
        [.dbQuery (.selectUserByEmail (getField req.body "email")),
          .send 404 (.message "User not found")]
      | .ok (u :: _) =>
        [.dbQuery (.selectUserByEmail (getField req.body "email")),
          .jwtSign [("userId", getField u "id"), ("email", getField u "email")]
            env.JWT_SECRET env.TOKEN_EXPIRY,
          .send 200 (.loggedIn "Login successful"
            (env.jwtSign [("userId", getField u "id"), ("email", getField u "email")]
              env.JWT_SECRET env.TOKEN_EXPIRY))] := by
  unfold login
  rcases hq : db.selectUserByEmail (getField req.body "email") store with ⟨s1, r⟩
  rcases r with m | rs
  · simp [h, hq]
  · cases rs <;> simp [h, hq]

/-- C8: `POST /login` signs a token only when the body carries an email and the
store lookup by that email returned at least one user without error; the
payload signed is then the id and email of the first record returned and the
answer is 200 with "Login successful" and that token.  Otherwise no token is
signed and the outcome is fixed by the case: a missing (or falsy) email gives
400 "Email is required" with the store not queried; with a truthy email the
store is queried once by that email, and a store error gives 500 with the
store's message, an empty result gives 404 "User not found", a first record
gives the token. -/
theorem login_issues_token_only_for_found_user {σ : Type} (env : Env) (db : Db σ) (req : Req)
    (store : σ) (user : Option Obj) :
    (∀ p, p ∈ signed (login env db req store user).events →
      hasField req.body "email" = true ∧
        ∃ u rest,
          (db.selectUserByEmail (getField req.body "email") store).2 = .ok (u :: rest) ∧
          p = [("userId", getField u "id"), ("email", getField u "email")] ∧
          (login env db req store user).events =
            [.dbQuery (.selectUserByEmail (getField req.body "email")),
              .jwtSign p env.JWT_SECRET env.TOKEN_EXPIRY,
              .send 200 (.loggedIn "Login successful"
                (env.jwtSign p env.JWT_SECRET env.TOKEN_EXPIRY))]) ∧
    (signed (login env db req store user).events = [] →
      (login env db req store user).events = [.send 400 (.message "Email is required")] ∨
        (∃ m, (db.selectUserByEmail (getField req.body "email") store).2 = .error m ∧
          (login env db req store user).events =
            [.dbQuery (.selectUserByEmail (getField req.body "email")),
              .send 500 (.error m)]) ∨
        ((db.selectUserByEmail (getField req.body "email") store).2 = .ok [] ∧
          (login env db req store user).events =
            [.dbQuery (.selectUserByEmail (getField req.body "email")),
              .send 404 (.message "User not found")])) ∧
    (hasField req.body "email" = false →
      (login env db req store user).events = [.send 400 (.message "Email is required")]) ∧
    ((getField req.body "email").truthy = false →
      (login env db req store user).events = [.send 400 (.message "Email is required")] ∧
        (login env db req store user).store = store) ∧
    ((getField req.body "email").truthy = true →
      (login env db req store user).store =
          (db.selectUserByEmail (getField req.body "email") store).1 ∧
        (∀ m, (db.selectUserByEmail (getField req.body "email") store).2 = .error m →
          (login env db req store user).events =
            [.dbQuery (.selectUserByEmail (getField req.body "email")),
              .send 500 (.error m)]) ∧
        ((db.selectUserByEmail (getField req.body "email") store).2 = .ok [] →
          (login env db req store user).events =
            [.dbQuery (.selectUserByEmail (getField req.body "email")),
              .send 404 (.message "User not found")]) ∧
        (∀ u rest,
          (db.selectUserByEmail (getField req.body "email") store).2 = .ok (u :: rest) →
          (login env db req store user).events =
            [.dbQuery (.selectUserByEmail (getField req.body "email")),
              .jwtSign [("userId", getField u "id"), ("email", getField u "email")]
                env.JWT_SECRET env.TOKEN_EXPIRY,
              .send 200 (.loggedIn "Login successful"
                (env.jwtSign [("userId", getField u "id"), ("email", getField u "email")]
                  env.JWT_SECRET env.TOKEN_EXPIRY))])) := by
  cases ht : (getField req.body "email").truthy with
  | false =>
    rw [login_of_falsy env db req store user ht]
    refine ⟨by simp [signed], fun _ => Or.inl rfl, fun _ => rfl, fun _ => ⟨rfl, rfl⟩, by simp⟩
  | true =>
    have hhas : hasField req.body "email" = true := by
      by_contra hn
      have := truthy_getField_of_not_hasField req.body "email" (by simpa using hn)
      simp [ht] at this
    have hstore : (login env db req store user).store =
        (db.selectUserByEmail (getField req.body "email") store).1 := by
      unfold login
      rcases hq : db.selectUserByEmail (getField req.body "email") store with ⟨s1, r⟩
      rcases r with m | rs
      · simp [ht, hq]
      · cases rs <;> simp [ht, hq]
    rw [hstore, login_of_truthy env db req store user ht]
    rcases hq : (db.selectUserByEmail (getField req.body "email") store).2 with m | rs
    · simp [signed, hhas]
    · cases rs with
      | nil => simp [signed, hhas]
      | cons u rest => simp [signed, hhas]

/-- The four outcomes of `POST /login` on concrete inputs: a registered email
gets a token for the record found, an unknown email 404, a failing store 500
with its message, an empty email 400. -/
theorem login_issues_token_only_for_found_user_witness :
    (login exampleEnv exampleDb ⟨none, [("email", .str "a@x.com")], ""⟩ [aliceRow] none).events =
        [.dbQuery (.selectUserByEmail (.str "a@x.com")),
          .jwtSign [("userId", .num 1), ("email", .str "a@x.com")] "secret" "1h",
          .send 200 (.loggedIn "Login successful" "new.token.sig")] ∧
      (login exampleEnv exampleDb ⟨none, [("email", .str "z@x.com")], ""⟩ [aliceRow] none).events =
        [.dbQuery (.selectUserByEmail (.str "z@x.com")),
          .send 404 (.message "User not found")] ∧
      (login exampleEnv failingDb ⟨none, [("email", .str "a@x.com")], ""⟩ [aliceRow] none).events =
        [.dbQuery (.selectUserByEmail (.str "a@x.com")), .send 500 (.error "ER_CON_LOST")] ∧
      (login exampleEnv exampleDb ⟨none, [("email", .str "")], ""⟩ [aliceRow] none).events =
        [.send 400 (.message "Email is required")] :=
  ⟨(login_issues_token_only_for_found_user exampleEnv exampleDb
      ⟨none, [("email", .str "a@x.com")], ""⟩ [aliceRow] none).2.2.2.2 (by decide)
      |>.2.2.2 aliceRow [] rfl,
    (login_issues_token_only_for_found_user exampleEnv exampleDb
      ⟨none, [("email", .str "z@x.com")], ""⟩ [aliceRow] none).2.2.2.2 (by decide)
      |>.2.2.1 rfl,
    (login_issues_token_only_for_found_user exampleEnv failingDb
      ⟨none, [("email", .str "a@x.com")], ""⟩ [aliceRow] none).2.2.2.2 (by decide)
      |>.2.1 "ER_CON_LOST" rfl,
    (login_issues_token_only_for_found_user exampleEnv exampleDb
      ⟨none, [("email", .str "")], ""⟩ [aliceRow] none).2.2.2.1 (by decide) |>.1⟩

/-- C9: a `DELETE /users/:id` request that passed the gate is answered by what
the store call reported alone, 500 with the error message or 200 "User deleted
successfully"; so two verified requests, whatever their claims and ids, are
both answered 200 with that message when the store reports no error.  The
claims are never consulted. -/
theorem deleteUserRoute_response_ignores_identity {σ : Type} (env : Env) (db : Db σ)
    (req₁ req₂ : Req) (store₁ store₂ : σ) (user₁ user₂ : Option Obj) (a₁ a₂ : String)
    (claims₁ claims₂ : Obj)
    (ha₁ : req₁.authorization = some a₁) (hp₁ : startsWith a₁ "Bearer " = true)
    (hv₁ : env.jwtVerify (candidateToken a₁) env.JWT_SECRET = .ok claims₁)
    (ha₂ : req₂.authorization = some a₂) (hp₂ : startsWith a₂ "Bearer " = true)
    (hv₂ : env.jwtVerify (candidateToken a₂) env.JWT_SECRET = .ok claims₂) :
    responses (deleteUserRoute env db req₁ store₁ user₁).events =
        [match (db.deleteUser req₁.id store₁).2 with
          | .error m => (500, .error m)
          | .ok _ => (200, .message "User deleted successfully")] ∧
      responses (deleteUserRoute env db req₂ store₂ user₂).events =
        [match (db.deleteUser req₂.id store₂).2 with
          | .error m => (500, .error m)
          | .ok _ => (200, .message "User deleted successfully")] ∧
      ((db.deleteUser req₁.id store₁).2 = .ok () → (db.deleteUser req₂.id store₂).2 = .ok () →
        responses (deleteUserRoute env db req₁ store₁ user₁).events =
            [(200, .message "User deleted successfully")] ∧
          responses (deleteUserRoute env db req₂ store₂ user₂).events =
            responses (deleteUserRoute env db req₁ store₁ user₁).events) := by
  have key : ∀ (req : Req) (store : σ) (user : Option Obj) (a : String) (claims : Obj),
      req.authorization = some a → startsWith a "Bearer " = true →
      env.jwtVerify (candidateToken a) env.JWT_SECRET = .ok claims →
      responses (deleteUserRoute env db req store user).events =
        [match (db.deleteUser req.id store).2 with
          | .error m => (500, .error m)
          | .ok _ => (200, .message "User deleted successfully")] := by
    intro req store user a claims ha hp hv
    unfold deleteUserRoute
    rw [verifyToken_of_verify_ok env req (deleteUser db req) store user a claims ha hp hv
      (deleteUser_events db req store (some claims)).1]
    unfold deleteUser
    rcases hq : db.deleteUser req.id store with ⟨s1, r⟩
    cases r <;> simp [responses]
  have k₁ := key req₁ store₁ user₁ a₁ claims₁ ha₁ hp₁ hv₁
  have k₂ := key req₂ store₂ user₂ a₂ claims₂ ha₂ hp₂ hv₂
  refine ⟨k₁, k₂, ?_⟩
  intro ok₁ ok₂
  rw [k₁, k₂, ok₁, ok₂]
  simp

/-- Two verified requests with different claims, one deleting an existing row
and one an id no row has, are both answered 200. -/
theorem deleteUserRoute_response_ignores_identity_witness :
    responses (deleteUserRoute exampleEnv exampleDb
        ⟨some "Bearer alice.token.sig", [], "1"⟩ [aliceRow] none).events =
        [(200, .message "User deleted successfully")] ∧
      responses (deleteUserRoute exampleEnv exampleDb
        ⟨some "Bearer bob.token.sig", [], "99"⟩ [aliceRow] none).events =
        responses (deleteUserRoute exampleEnv exampleDb
          ⟨some "Bearer alice.token.sig", [], "1"⟩ [aliceRow] none).events :=
  (deleteUserRoute_response_ignores_identity exampleEnv exampleDb
    ⟨some "Bearer alice.token.sig", [], "1"⟩ ⟨some "Bearer bob.token.sig", [], "99"⟩
    [aliceRow] [aliceRow] none none "Bearer alice.token.sig" "Bearer bob.token.sig"
    aliceClaims bobClaims rfl (by decide) rfl rfl (by decide) rfl).2.2 rfl rfl

end App
